import Mathlib

/-!
Shallow embedding of the SPS30 UART particulate-matter sensor driver
(`src/lib.rs`), covering the frame protocol engine: checksum computation,
request-frame construction, the response read loop, MISO-frame validation,
and the per-command response payload decoders.

Bytes are modelled as `Nat` values (wire bytes are < 256); payloads are
`List Nat`. Fallible code returns `Except Error`; a Rust panic (out of
bounds index) is modelled as `Option.none`. `u32` arithmetic carries an
explicit `% 2^32`.
-/

deriving instance DecidableEq for Except

/-- The `Error` enum of the driver (the source spells `InvalidRespose`). -/
inductive Error where
  | SerialR
  | SerialW
  | SHDLC
  | InvalidFrame
  | EmptyResult
  | ChecksumFailed
  | InvalidRespose
  | StatusError
deriving DecidableEq, Repr

/-- The `CommandType` enum of the driver. -/
inductive CommandType where
  | StartMeasurement
  | StopMeasurement
  | ReadMeasuredData
  | ReadWriteAutoCleaningInterval
  | StartFanCleaning
  | DeviceInformation
  | Reset
deriving DecidableEq, Repr

/-- Numeric code of each command (`cmd_type as u8` in the source). -/
def CommandType.code : CommandType → Nat
  | .StartMeasurement => 0
  | .StopMeasurement => 1
  | .ReadMeasuredData => 3
  | .ReadWriteAutoCleaningInterval => 0x80
  | .StartFanCleaning => 0x56
  | .DeviceInformation => 0xD0
  | .Reset => 0xD3

/-- The `DeviceInfo` enum of the driver. -/
inductive DeviceInfo where
  | ProductName
  | ArticleCode
  | SerialNumber
deriving DecidableEq, Repr

/-- Numeric code of each device-info selector (`info as u8` in the source). -/
def DeviceInfo.code : DeviceInfo → Nat
  | .ProductName => 1
  | .ArticleCode => 2
  | .SerialNumber => 3

/-- `MAX_BUFFER`: max characters to read for a frame detection. -/
def MAX_BUFFER : Nat := 600

/-- `compute_cksum` from the source: running sum modulo 256 over all input
bytes (`cksum` is a `u8`, the sum is taken in `u16` and reduced), then
`255 - cksum`. -/
def compute_cksum (data : List Nat) : Nat :=
  255 - data.foldl (fun cksum byte => (cksum + byte) % 256) 0

/-- `check_miso_frame` from the source: the four checks, in order, on the
decoded response payload `data` for the issued command `cmd_type`. -/
def check_miso_frame (data : List Nat) (cmd_type : CommandType) :
    Except Error (List Nat) :=
  if data.length < 5 then Except.error Error.InvalidRespose
  else if data.getD 1 0 ≠ cmd_type.code then Except.error Error.InvalidRespose
  else if data.getD 2 0 ≠ 0 then Except.error Error.StatusError
  else if data.getD 3 0 ≠ data.length - 5 then Except.error Error.InvalidRespose
  else Except.ok data

/-- 2^32, the `u32` modulus. -/
def U32_MOD : Nat := 4294967296

/-- One step of the big-endian accumulation `bits = (bits << 8) + byte as u32`
performed on a `u32` accumulator with a `u8` byte. -/
def be_accum (bits byte : Nat) : Nat := (bits * 256 + byte % 256) % U32_MOD

/-- `u32::to_be_bytes`: the 4 big-endian bytes of a 32-bit value. -/
def u32_to_be_bytes (val : Nat) : List Nat :=
  [val / 16777216 % 256, val / 65536 % 256, val / 256 % 256, val % 256]

/-- Big-endian decoding of a byte list into a `u32` accumulator, as done by
`read_cleaning_interval` and `read_measurement`. -/
def be32_decode (l : List Nat) : Nat := l.foldl be_accum 0

/-! Request frames built by the eight public operations. Each mirrors the
`cmd` array literal of the source followed by the pushed checksum byte. -/

/-- Request frame built by `start_measurement`. -/
def start_measurement_req : List Nat :=
  [0x00, 0x00, 0x02, 0x01, 0x03] ++ [compute_cksum [0x00, 0x00, 0x02, 0x01, 0x03]]

/-- Request frame built by `stop_measurement`. -/
def stop_measurement_req : List Nat :=
  [0x00, 0x01, 0x00] ++ [compute_cksum [0x00, 0x01, 0x00]]

/-- Request frame built by `read_measurement` (the source computes the
checksum over `cmd`, which equals the buffer contents at that point). -/
def read_measurement_req : List Nat :=
  [0x00, 0x03, 0x00] ++ [compute_cksum [0x00, 0x03, 0x00]]

/-- Request frame built by `read_cleaning_interval`. -/
def read_cleaning_interval_req : List Nat :=
  [0x00, 0x80, 0x01, 0x00] ++ [compute_cksum [0x00, 0x80, 0x01, 0x00]]

/-- Request frame built by `write_cleaning_interval val`: the fixed header
`[0x00, 0x80, 0x05, 0x00]`, the 4 big-endian bytes of `val`, the checksum. -/
def write_cleaning_interval_req (val : Nat) : List Nat :=
  ([0x00, 0x80, 0x05, 0x00] ++ u32_to_be_bytes val) ++
    [compute_cksum ([0x00, 0x80, 0x05, 0x00] ++ u32_to_be_bytes val)]

/-- Request frame built by `start_fan_cleaning`. -/
def start_fan_cleaning_req : List Nat :=
  [0x00, 0x56, 0x00] ++ [compute_cksum [0x00, 0x56, 0x00]]

/-- Request frame built by `device_info info`. -/
def device_info_req (info : DeviceInfo) : List Nat :=
  ([0x00, 0xD0, 0x01] ++ [info.code]) ++
    [compute_cksum ([0x00, 0xD0, 0x01] ++ [info.code])]

/-- Request frame built by `reset`. -/
def reset_req : List Nat :=
  [0x00, 0xD3, 0x00] ++ [compute_cksum [0x00, 0xD3, 0x00]]

/-- A frame of the shape `[address=0, command code, data-length, data...,
checksum]` where the data-length byte counts the data bytes that follow and
the checksum byte is `compute_cksum` of all preceding bytes. -/
def well_formed_request (frame : List Nat) : Prop :=
  ∃ code data, frame =
    [0, code, data.length] ++ data ++
      [compute_cksum ([0, code, data.length] ++ data)]

/-! Response-side processing. -/

/-- The read loop of `read_uart_data`: read one byte at a time from the
transport (`stream n` is the result of the n-th byte read; `Except.error`
is a hard serial error), counting `0x7e` delimiters, until two have been
seen; after each push, if more than `MAX_BUFFER` bytes have been captured,
fail with `InvalidFrame`. The `fuel` argument makes the recursion
structural; `none` marks fuel exhaustion and `read_loop_isSome` below shows
it is never hit from the initial state with fuel `MAX_BUFFER + 2`, because
each iteration grows `output` by one byte and the loop stops once
`output.length > MAX_BUFFER`. The second component of the result is the
number of bytes read from the transport. -/
def read_loop (stream : Nat → Except Unit Nat) :
    Nat → Nat → List Nat → Option (Except Error (List Nat) × Nat)
  | 0, _, _ => none
  | fuel + 1, seen, output =>
    if seen = 2 then some (Except.ok output, output.length)
    else
      match stream output.length with
      | Except.error _ => some (Except.error Error.SerialR, output.length)
      | Except.ok value =>
        let seen2 := if value = 0x7e then seen + 1 else seen
        let output2 := output ++ [value]
        if output2.length > MAX_BUFFER then
          some (Except.error Error.InvalidFrame, output2.length)
        else
          read_loop stream fuel seen2 output2

/-- Initial fuel for `read_loop`; enough for the loop to reach its cap. -/
def FUEL : Nat := MAX_BUFFER + 2

/-- The checksum-verification step of `read_uart_data`, applied to the
decoded payload `v`: the source compares `v[v.len() - 1]` against
`compute_cksum(&v[..v.len() - 1])`. When `v` is empty, `v.len() - 1`
underflows and the index is out of bounds (a panic); this is modelled as
`none`. -/
def checksum_step (v : List Nat) : Option (Except Error (List Nat)) :=
  if v.length = 0 then none
  else if v.getD (v.length - 1) 0 = compute_cksum (v.take (v.length - 1)) then
    some (Except.ok v)
  else some (Except.error Error.ChecksumFailed)

/-- `read_uart_data`: run the read loop, hand the captured bytes to the
frame-codec `decode` collaborator (modelled as a parameter, per the spec an
external primitive returning a payload or a framing error), then verify the
checksum. `none` models a panic. -/
def read_uart_data (stream : Nat → Except Unit Nat)
    (decode : List Nat → Except Unit (List Nat)) :
    Option (Except Error (List Nat)) :=
  match read_loop stream FUEL 0 [] with
  | none => none
  | some (Except.error e, _) => some (Except.error e)
  | some (Except.ok output, _) =>
    match decode output with
    | Except.error _ => some (Except.error Error.SHDLC)
    | Except.ok v => checksum_step v

/-! Per-command response handling: each public operation passes the decoded
payload through `check_miso_frame` and then applies its decode rule. These
functions embed the code each operation runs on the value returned by
`read_uart_data`. -/

/-- Response handling of `start_measurement`. -/
def start_measurement_handle (r : List Nat) : Except Error Unit :=
  (check_miso_frame r CommandType.StartMeasurement).map (fun _ => ())

/-- Response handling of `stop_measurement`. -/
def stop_measurement_handle (r : List Nat) : Except Error Unit :=
  (check_miso_frame r CommandType.StopMeasurement).map (fun _ => ())

/-- The ten 4-byte big-endian groups decoded by `read_measurement`:
group `i` accumulates `v[4 + 4*i .. 4 + 4*(i+1)]`. The result is the list
of the ten `u32` bit patterns handed to `Ieee754::from_bits`. -/
def measurement_bits (v : List Nat) : List Nat :=
  (List.range 10).map (fun i => ((v.drop (4 + 4 * i)).take 4).foldl be_accum 0)

/-- Response handling of `read_measurement`: match on the payload length
first (45 decodes after validation, 5 is `EmptyResult`, anything else is
`InvalidFrame`). -/
def read_measurement_handle (v : List Nat) : Except Error (List Nat) :=
  if v.length = 45 then
    match check_miso_frame v CommandType.ReadMeasuredData with
    | Except.error e => Except.error e
    | Except.ok _ => Except.ok (measurement_bits v)
  else if v.length = 5 then Except.error Error.EmptyResult
  else Except.error Error.InvalidFrame

/-- Response handling of `read_cleaning_interval`: validate, require the
data-length field to be 4, then decode `v[4..8]` big-endian. -/
def read_cleaning_interval_handle (r : List Nat) : Except Error Nat :=
  match check_miso_frame r CommandType.ReadWriteAutoCleaningInterval with
  | Except.error e => Except.error e
  | Except.ok v =>
    if v.getD 3 0 ≠ 4 then Except.error Error.InvalidRespose
    else Except.ok (((v.drop 4).take 4).foldl be_accum 0)

/-- Response handling of `write_cleaning_interval`: validate, require the
data-length field to be 0. -/
def write_cleaning_interval_handle (r : List Nat) : Except Error Unit :=
  match check_miso_frame r CommandType.ReadWriteAutoCleaningInterval with
  | Except.error e => Except.error e
  | Except.ok v =>
    if v.getD 3 0 ≠ 0 then Except.error Error.InvalidRespose
    else Except.ok ()

/-- Response handling of `start_fan_cleaning`. -/
def start_fan_cleaning_handle (r : List Nat) : Except Error Unit :=
  (check_miso_frame r CommandType.StartFanCleaning).map (fun _ => ())

/-- The copy step of `device_info`: a 32-byte zero-initialised buffer; when
the data-length field `val[3]` is below 33, positions `i < val[3]` receive
`val[3 + i]` (exactly as the source loop writes them), otherwise the call
fails with `EmptyResult`. -/
def device_info_decode (val : List Nat) : Except Error (List Nat) :=
  if val.getD 3 0 < 33 then
    Except.ok ((List.range 32).map
      (fun i => if i < val.getD 3 0 then val.getD (3 + i) 0 else 0))
  else Except.error Error.EmptyResult

/-- Response handling of `device_info`. -/
def device_info_handle (r : List Nat) : Except Error (List Nat) :=
  match check_miso_frame r CommandType.DeviceInformation with
  | Except.error e => Except.error e
  | Except.ok val => device_info_decode val

/-- Response handling of `reset`. -/
def reset_handle (r : List Nat) : Except Error Unit :=
  (check_miso_frame r CommandType.Reset).map (fun _ => ())

/-- IEEE-754 binary32 reading of a 32-bit pattern, as a rational: sign bit,
8 exponent bits, 23 mantissa bits; `none` for infinities and NaNs
(exponent 255). A normal number with exponent field `e` and mantissa `m`
denotes `(1 + m/2^23) * 2^(e-127) = (2^23 + m) * 2^e / 2^150`; a subnormal
denotes `m * 2^(-149)`. -/
def binary32_val (bits : Nat) : Option ℚ :=
  let sign : ℚ := if bits / 2147483648 % 2 = 1 then -1 else 1
  let e := bits / 8388608 % 256
  let m := bits % 8388608
  if e = 255 then none
  else if e = 0 then some (sign * m / 2 ^ 149)
  else some (sign * (8388608 + m) * 2 ^ e / 2 ^ 150)

/-- The response payload a device that echoes the written cleaning interval
returns to `read_cleaning_interval`: command `0x80`, state 0, data-length 4,
the 4 big-endian bytes of `val`, and the checksum. -/
def echo_response (val : Nat) : List Nat :=
  ([0, 0x80, 0, 4] ++ u32_to_be_bytes val) ++
    [compute_cksum ([0, 0x80, 0, 4] ++ u32_to_be_bytes val)]

/-- A concrete valid `read_measurement` response payload: header
`[0, 3, 0, 40]`, first data group `0x3F 0x80 0x00 0x00` (the binary32 bits
of 1.0), 36 further zero data bytes, checksum 21. -/
def sample_measurement_response : List Nat :=
  [0, 3, 0, 40, 0x3F, 0x80, 0, 0] ++ List.replicate 36 0 ++ [21]

/-! Helper lemmas. -/

/-- The mod-256 running sum of `compute_cksum` equals the plain sum mod 256. -/
theorem cksum_foldl_eq_sum_mod (l : List Nat) : ∀ acc, acc < 256 →
    l.foldl (fun cksum byte => (cksum + byte) % 256) acc = (acc + l.sum) % 256 := by
  induction l with
  | nil => intro acc h; simp [Nat.mod_eq_of_lt h]
  | cons b t ih =>
    intro acc h
    simp only [List.foldl_cons, List.sum_cons]
    rw [ih ((acc + b) % 256) (Nat.mod_lt _ (by norm_num))]
    omega

/-- Taking four elements after dropping `n` yields the four elements at
indices `n`, `n+1`, `n+2`, `n+3`. -/
theorem take_four_drop : ∀ (n : Nat) (l : List Nat), n + 4 ≤ l.length →
    (l.drop n).take 4 =
      [l.getD n 0, l.getD (n + 1) 0, l.getD (n + 2) 0, l.getD (n + 3) 0] := by
  intro n
  induction n with
  | zero =>
    intro l h
    match l with
    | [] => simp at h
    | [a] => simp at h
    | [a, b] => simp at h
    | [a, b, c] => simp at h
    | a :: b :: c :: d :: t => simp
  | succ n ih =>
    intro l h
    match l with
    | [] => simp at h
    | a :: t =>
      simp only [List.drop_succ_cons, List.getD_cons_succ]
      exact ih t (by simp at h; omega)

/-- An in-range `getD` over a list of wire bytes is below 256. -/
theorem getD_lt_256 (l : List Nat) (k : Nat) (hk : k < l.length)
    (hb : ∀ b ∈ l, b < 256) : l.getD k 0 < 256 := by
  rw [List.getD_eq_getElem?_getD, List.getElem?_eq_getElem hk]
  exact hb _ (List.getElem_mem _)

/-- Element `i` of `(List.range n).map f` is `f i`. -/
theorem getD_map_range (f : Nat → Nat) (n i : Nat) (h : i < n) :
    ((List.range n).map f).getD i 0 = f i := by
  simp [List.getD_eq_getElem?_getD, List.getElem?_map, List.getElem?_range h]

/-- The read loop never exhausts its fuel: from any state whose captured
buffer is within the cap and whose fuel covers the remaining capacity, it
returns a result. In particular the loop always terminates. -/
theorem read_loop_isSome (stream : Nat → Except Unit Nat) :
    ∀ fuel seen output, output.length ≤ MAX_BUFFER →
      MAX_BUFFER + 2 ≤ output.length + fuel →
      (read_loop stream fuel seen output).isSome := by
  intro fuel
  induction fuel with
  | zero => intro seen output h1 h2; simp [MAX_BUFFER] at h1 h2; omega
  | succ fuel ih =>
    intro seen output h1 h2
    simp only [read_loop]
    by_cases hs : seen = 2
    · simp [hs]
    · simp only [if_neg hs]
      cases hst : stream output.length with
      | error e => simp
      | ok value =>
        simp only []
        by_cases hlen : MAX_BUFFER < output.length + 1
        · simp [hlen]
        · have hc : ¬ ((output ++ [value]).length > MAX_BUFFER) := by simpa using hlen
          rw [if_neg hc]
          refine ih _ _ ?_ ?_
          · simp; omega
          · simp; omega

/-- On a stream of zero bytes (never a delimiter), the read loop runs to
its cap and fails with `InvalidFrame` after reading `MAX_BUFFER + 1`
bytes. -/
theorem read_loop_zero_stream :
    ∀ fuel seen output, seen ≠ 2 → output.length ≤ MAX_BUFFER →
      output.length + fuel = MAX_BUFFER + 2 →
      read_loop (fun _ => Except.ok 0) fuel seen output =
        some (Except.error Error.InvalidFrame, MAX_BUFFER + 1) := by
  intro fuel
  induction fuel with
  | zero => intro seen output hs h1 h2; simp [MAX_BUFFER] at h1 h2; omega
  | succ fuel ih =>
    intro seen output hs h1 h2
    simp only [read_loop, if_neg hs]
    by_cases hlen : (output ++ [0]).length > MAX_BUFFER
    · rw [if_pos hlen]
      have : output.length = MAX_BUFFER := by simp [MAX_BUFFER] at h1 hlen ⊢; omega
      simp [this]
    · rw [if_neg hlen]
      refine ih _ _ hs ?_ ?_
      · simp at hlen ⊢; omega
      · simp at h2 ⊢; omega

/-! Claim theorems. -/

/-- C1: `check_miso_frame`, given a decoded response payload and the issued
command, checks in order: payload length below 5 fails with
`InvalidRespose`; then a mismatched command code at byte 1 fails with
`InvalidRespose`; then a non-zero state at byte 2 fails with `StatusError`;
then a data-length byte 3 different from length minus 5 fails with
`InvalidRespose`; otherwise it returns the payload unchanged. -/
theorem check_miso_frame_cases (data : List Nat) (cmd : CommandType) :
    (data.length < 5 →
      check_miso_frame data cmd = Except.error Error.InvalidRespose)
  ∧ (5 ≤ data.length → data.getD 1 0 ≠ cmd.code →
      check_miso_frame data cmd = Except.error Error.InvalidRespose)
  ∧ (5 ≤ data.length → data.getD 1 0 = cmd.code → data.getD 2 0 ≠ 0 →
      check_miso_frame data cmd = Except.error Error.StatusError)
  ∧ (5 ≤ data.length → data.getD 1 0 = cmd.code → data.getD 2 0 = 0 →
      data.getD 3 0 ≠ data.length - 5 →
      check_miso_frame data cmd = Except.error Error.InvalidRespose)
  ∧ (5 ≤ data.length → data.getD 1 0 = cmd.code → data.getD 2 0 = 0 →
      data.getD 3 0 = data.length - 5 →
      check_miso_frame data cmd = Except.ok data) := by
  unfold check_miso_frame
  refine ⟨fun h1 => ?_, fun h1 h2 => ?_, fun h1 h2 h3 => ?_,
    fun h1 h2 h3 h4 => ?_, fun h1 h2 h3 h4 => ?_⟩
  · rw [if_pos h1]
  · rw [if_neg (by omega), if_pos h2]
  · rw [if_neg (by omega), if_neg (fun hne => hne h2), if_pos h3]
  · rw [if_neg (by omega), if_neg (fun hne => hne h2),
      if_neg (fun hne => hne h3), if_pos h4]
  · rw [if_neg (by omega), if_neg (fun hne => hne h2),
      if_neg (fun hne => hne h3), if_neg (fun hne => hne h4)]

/-- C1 witness: each of the five cases of `check_miso_frame_cases` at a
concrete payload. -/
theorem check_miso_frame_cases_witness :
    check_miso_frame [0, 3] CommandType.ReadMeasuredData =
      Except.error Error.InvalidRespose
  ∧ check_miso_frame [0, 9, 0, 0, 99] CommandType.ReadMeasuredData =
      Except.error Error.InvalidRespose
  ∧ check_miso_frame [0, 3, 7, 0, 99] CommandType.ReadMeasuredData =
      Except.error Error.StatusError
  ∧ check_miso_frame [0, 3, 0, 9, 99] CommandType.ReadMeasuredData =
      Except.error Error.InvalidRespose
  ∧ check_miso_frame [0, 3, 0, 0, 99] CommandType.ReadMeasuredData =
      Except.ok [0, 3, 0, 0, 99] :=
  ⟨(check_miso_frame_cases [0, 3] CommandType.ReadMeasuredData).1 (by decide),
   (check_miso_frame_cases [0, 9, 0, 0, 99] CommandType.ReadMeasuredData).2.1
     (by decide) (by decide),
   (check_miso_frame_cases [0, 3, 7, 0, 99] CommandType.ReadMeasuredData).2.2.1
     (by decide) (by decide) (by decide),
   (check_miso_frame_cases [0, 3, 0, 9, 99] CommandType.ReadMeasuredData).2.2.2.1
     (by decide) (by decide) (by decide) (by decide),
   (check_miso_frame_cases [0, 3, 0, 0, 99] CommandType.ReadMeasuredData).2.2.2.2
     (by decide) (by decide) (by decide) (by decide)⟩

/-- C4: `compute_cksum` returns 255 minus the sum of the input bytes modulo
256, for every byte sequence; it is a total function of its input. -/
theorem compute_cksum_spec (data : List Nat) :
    compute_cksum data = 255 - data.sum % 256 := by
  unfold compute_cksum
  rw [cksum_foldl_eq_sum_mod data 0 (by norm_num)]
  simp

/-- C9 counterexample: on `[0x00, 0x00, 0x02, 0x01, 0x03]` the checksum is
not 0xF3. -/
theorem cksum_start_measurement_not_f3 :
    compute_cksum [0x00, 0x00, 0x02, 0x01, 0x03] ≠ 0xF3 := by decide

/-- C9 (amended): `compute_cksum` on `[0x00, 0x00, 0x02, 0x01, 0x03]`
yields 0xF9, the checksum byte of the built `start_measurement` request
frame `0x00 0x00 0x02 0x01 0x03 0xF9`. -/
theorem cksum_start_measurement_value :
    compute_cksum [0x00, 0x00, 0x02, 0x01, 0x03] = 0xF9
  ∧ start_measurement_req = [0x00, 0x00, 0x02, 0x01, 0x03, 0xF9] := by decide

/-- C2: on a validated device-info response with data-length 1 and data
byte 0x41, the copy loop of `device_info` starts at index 3 (the
data-length byte) instead of 4, so position 0 of the returned buffer is the
length byte 1, not the data byte 0x41. The zero-data-length case and the
data-length-33 case behave as documented. -/
theorem device_info_returns_length_byte :
    device_info_handle [0x00, 0xD0, 0x00, 0x01, 0x41, 0xED] =
      Except.ok (1 :: List.replicate 31 0)
  ∧ device_info_handle [0x00, 0xD0, 0x00, 0x01, 0x41, 0xED] ≠
      Except.ok (0x41 :: List.replicate 31 0)
  ∧ device_info_handle [0x00, 0xD0, 0x00, 0x00, 0x2B] =
      Except.ok (List.replicate 32 0)
  ∧ device_info_handle ([0x00, 0xD0, 0x00, 33] ++ List.replicate 33 1 ++ [99]) =
      Except.error Error.EmptyResult := by decide

/-- C5: on a stream of zero bytes (no delimiter ever), the read loop stops
with `InvalidFrame`, but only after reading `MAX_BUFFER + 1 = 601` bytes
from the transport, because the cap is checked strictly after each push. -/
theorem read_loop_reads_601 :
    read_loop (fun _ => Except.ok 0) FUEL 0 [] =
      some (Except.error Error.InvalidFrame, MAX_BUFFER + 1) :=
  read_loop_zero_stream FUEL 0 [] (by decide) (by decide) (by decide)

/-- C10: the checksum-verification step of `read_uart_data` indexes
`v[v.len() - 1]`; on the empty decoded payload the index is out of bounds
(modelled as `none`), so a transport stream of two bare delimiters whose
decode yields the empty payload makes `read_uart_data` panic instead of
returning an error value. -/
theorem read_uart_checksum_oob :
    checksum_step [] = none
  ∧ read_uart_data (fun _ => Except.ok 0x7e) (fun _ => Except.ok []) = none :=
  ⟨rfl, rfl⟩

/-- C6 counterexample: a 5-byte decoded response for `read_measurement`
with a non-zero state byte fails with `EmptyResult`, not `StatusError`,
because the length dispatch happens before the MISO-frame checks. -/
theorem read_measurement_nonzero_state_counterexample :
    ([0, 3, 1, 0, 251] : List Nat).getD 2 0 = 1
  ∧ read_measurement_handle [0, 3, 1, 0, 251] = Except.error Error.EmptyResult
  ∧ Error.EmptyResult ≠ Error.StatusError := by decide

/-- C6 (amended): every operation except `read_measurement` passes the
decoded response through `check_miso_frame` before its payload decoding,
propagating any validation error; `read_measurement` dispatches on the
payload length first, so a non-zero state byte yields `StatusError` only
for 45-byte responses carrying the right command code, while a 5-byte
response yields `EmptyResult` and any other length `InvalidFrame`,
regardless of the state byte. -/
theorem operations_validate_first :
    (∀ r e, check_miso_frame r CommandType.StartMeasurement = Except.error e →
      start_measurement_handle r = Except.error e)
  ∧ (∀ r e, check_miso_frame r CommandType.StopMeasurement = Except.error e →
      stop_measurement_handle r = Except.error e)
  ∧ (∀ r e, check_miso_frame r CommandType.ReadWriteAutoCleaningInterval =
        Except.error e → read_cleaning_interval_handle r = Except.error e)
  ∧ (∀ r e, check_miso_frame r CommandType.ReadWriteAutoCleaningInterval =
        Except.error e → write_cleaning_interval_handle r = Except.error e)
  ∧ (∀ r e, check_miso_frame r CommandType.StartFanCleaning = Except.error e →
      start_fan_cleaning_handle r = Except.error e)
  ∧ (∀ r e, check_miso_frame r CommandType.DeviceInformation = Except.error e →
      device_info_handle r = Except.error e)
  ∧ (∀ r e, check_miso_frame r CommandType.Reset = Except.error e →
      reset_handle r = Except.error e)
  ∧ (∀ v : List Nat, v.length = 45 → v.getD 1 0 = 3 → v.getD 2 0 ≠ 0 →
      read_measurement_handle v = Except.error Error.StatusError)
  ∧ (∀ v : List Nat, v.length = 5 →
      read_measurement_handle v = Except.error Error.EmptyResult)
  ∧ (∀ v : List Nat, v.length ≠ 45 → v.length ≠ 5 →
      read_measurement_handle v = Except.error Error.InvalidFrame) := by
  refine ⟨fun r e h => ?_, fun r e h => ?_, fun r e h => ?_, fun r e h => ?_,
    fun r e h => ?_, fun r e h => ?_, fun r e h => ?_,
    fun v h45 hcmd hstate => ?_, fun v h5 => ?_, fun v h45 h5 => ?_⟩
  · simp [start_measurement_handle, h, Except.map]
  · simp [stop_measurement_handle, h, Except.map]
  · simp [read_cleaning_interval_handle, h]
  · simp [write_cleaning_interval_handle, h]
  · simp [start_fan_cleaning_handle, h, Except.map]
  · simp [device_info_handle, h]
  · simp [reset_handle, h, Except.map]
  · rw [read_measurement_handle, if_pos h45, check_miso_frame,
      if_neg (by omega), if_neg (fun hne => hne (by simpa [CommandType.code] using hcmd)),
      if_pos hstate]
  · rw [read_measurement_handle, if_neg (by omega), if_pos h5]
  · rw [read_measurement_handle, if_neg (by simpa using h45),
      if_neg (by simpa using h5)]

/-- C6 witness: a validation error propagated by `start_measurement`, and a
45-byte `read_measurement` response with non-zero state failing with
`StatusError`. -/
theorem operations_validate_first_witness :
    start_measurement_handle [0, 9, 0, 0, 1] = Except.error Error.InvalidRespose
  ∧ read_measurement_handle (0 :: 3 :: 1 :: List.replicate 42 0) =
      Except.error Error.StatusError :=
  ⟨operations_validate_first.1 [0, 9, 0, 0, 1] Error.InvalidRespose (by decide),
   operations_validate_first.2.2.2.2.2.2.2.1 (0 :: 3 :: 1 :: List.replicate 42 0)
     (by decide) (by decide) (by decide)⟩

/-- C3: for a 45-byte response payload that passes the MISO checks for
`ReadMeasuredData` (command code 3, state 0, data-length 40) and whose
entries are wire bytes, `read_measurement` succeeds and its ten results are
the big-endian 4-byte groups taken from payload bytes 4 through 43 in
order; a group with bits 0x3F800000 denotes 1.0 under IEEE-754 binary32; a
5-byte payload fails with `EmptyResult`; any other length fails with
`InvalidFrame`. -/
theorem read_measurement_spec (v : List Nat)
    (hlen : v.length = 45) (hcmd : v.getD 1 0 = 3) (hstate : v.getD 2 0 = 0)
    (hdl : v.getD 3 0 = 40) (hbytes : ∀ b ∈ v, b < 256) :
    read_measurement_handle v = Except.ok (measurement_bits v)
  ∧ (∀ i, i < 10 → (measurement_bits v).getD i 0 =
      v.getD (4 + 4 * i) 0 * 16777216 + v.getD (5 + 4 * i) 0 * 65536 +
        v.getD (6 + 4 * i) 0 * 256 + v.getD (7 + 4 * i) 0)
  ∧ (v.getD 4 0 = 0x3F → v.getD 5 0 = 0x80 → v.getD 6 0 = 0 → v.getD 7 0 = 0 →
      binary32_val ((measurement_bits v).getD 0 0) = some 1)
  ∧ (∀ w : List Nat, w.length = 5 →
      read_measurement_handle w = Except.error Error.EmptyResult)
  ∧ (∀ w : List Nat, w.length ≠ 45 → w.length ≠ 5 →
      read_measurement_handle w = Except.error Error.InvalidFrame) := by
  have hb : ∀ k, k < 45 → v.getD k 0 < 256 := fun k hk =>
    getD_lt_256 v k (by omega) hbytes
  have key : ∀ i, i < 10 → (measurement_bits v).getD i 0 =
      v.getD (4 + 4 * i) 0 * 16777216 + v.getD (5 + 4 * i) 0 * 65536 +
        v.getD (6 + 4 * i) 0 * 256 + v.getD (7 + 4 * i) 0 := by
    intro i hi
    rw [measurement_bits, getD_map_range _ _ _ hi,
      take_four_drop (4 + 4 * i) v (by omega)]
    have e1 : 4 + 4 * i + 1 = 5 + 4 * i := by omega
    have e2 : 4 + 4 * i + 2 = 6 + 4 * i := by omega
    have e3 : 4 + 4 * i + 3 = 7 + 4 * i := by omega
    rw [e1, e2, e3]
    simp only [List.foldl_cons, List.foldl_nil, be_accum, U32_MOD]
    have b0 := hb (4 + 4 * i) (by omega)
    have b1 := hb (5 + 4 * i) (by omega)
    have b2 := hb (6 + 4 * i) (by omega)
    have b3 := hb (7 + 4 * i) (by omega)
    omega
  refine ⟨?_, key, ?_, ?_, ?_⟩
  · rw [read_measurement_handle, if_pos hlen, check_miso_frame,
      if_neg (by omega),
      if_neg (fun hne => hne (by simpa [CommandType.code] using hcmd)),
      if_neg (fun hne => hne hstate),
      if_neg (fun hne => hne (by rw [hdl, hlen]))]
  · intro h4 h5 h6 h7
    have hk := key 0 (by omega)
    simp only [Nat.mul_zero, Nat.add_zero] at hk
    rw [hk, h4, h5, h6, h7]
    norm_num [binary32_val]
  · intro w hw
    rw [read_measurement_handle, if_neg (by omega), if_pos hw]
  · intro w h45 h5
    rw [read_measurement_handle, if_neg h45, if_neg h5]

/-- C3 witness: the sample response decodes, and its first group denotes
1.0. -/
theorem read_measurement_spec_witness :
    read_measurement_handle sample_measurement_response =
      Except.ok (measurement_bits sample_measurement_response)
  ∧ binary32_val ((measurement_bits sample_measurement_response).getD 0 0) =
      some 1 := by
  have h := read_measurement_spec sample_measurement_response (by decide)
    (by decide) (by decide) (by decide) (by decide)
  exact ⟨h.1, h.2.2.1 (by decide) (by decide) (by decide) (by decide)⟩

/-- Big-endian decoding inverts `u32::to_be_bytes` on 32-bit values. -/
theorem be32_decode_to_be (val : Nat) (h : val < 4294967296) :
    be32_decode (u32_to_be_bytes val) = val := by
  simp only [be32_decode, u32_to_be_bytes, List.foldl_cons, List.foldl_nil,
    be_accum, U32_MOD]
  omega

/-- C7: the big-endian 4-byte encoding used by `write_cleaning_interval`
and the big-endian decoding used by `read_cleaning_interval` are mutually
inverse on unsigned 32-bit values, and `read_cleaning_interval` applied to
the response of a device echoing the written value returns that value. -/
theorem cleaning_interval_roundtrip (val : Nat) (h : val < 4294967296) :
    be32_decode (u32_to_be_bytes val) = val
  ∧ read_cleaning_interval_handle (echo_response val) = Except.ok val := by
  refine ⟨be32_decode_to_be val h, ?_⟩
  have hshape : echo_response val = 0 :: 0x80 :: 0 :: 4 ::
      (val / 16777216 % 256) :: (val / 65536 % 256) :: (val / 256 % 256) ::
      (val % 256) ::
      [compute_cksum ([0, 0x80, 0, 4] ++ u32_to_be_bytes val)] := by
    simp [echo_response, u32_to_be_bytes]
  rw [read_cleaning_interval_handle, hshape, check_miso_frame]
  rw [if_neg (by simp), if_neg (by simp [CommandType.code]), if_neg (by simp),
    if_neg (by simp)]
  simp only []
  rw [if_neg (by simp)]
  have : ((0 :: 0x80 :: 0 :: 4 ::
      (val / 16777216 % 256) :: (val / 65536 % 256) :: (val / 256 % 256) ::
      (val % 256) ::
      [compute_cksum ([0, 0x80, 0, 4] ++ u32_to_be_bytes val)]).drop 4).take 4 =
      u32_to_be_bytes val := by
    simp [u32_to_be_bytes]
  rw [this]
  rw [show (u32_to_be_bytes val).foldl be_accum 0 =
    be32_decode (u32_to_be_bytes val) from rfl]
  rw [be32_decode_to_be val h]

/-- C7 witness: the one-week interval 604800 round-trips. -/
theorem cleaning_interval_roundtrip_witness :
    be32_decode (u32_to_be_bytes 604800) = 604800
  ∧ read_cleaning_interval_handle (echo_response 604800) = Except.ok 604800 :=
  cleaning_interval_roundtrip 604800 (by norm_num)

/-- C8: every request frame built by the eight public operations has the
form address 0, command code, data-length equal to the number of data bytes
that follow, the data bytes, and a trailing `compute_cksum` over all
preceding bytes. -/
theorem request_frames_well_formed :
    well_formed_request start_measurement_req
  ∧ well_formed_request stop_measurement_req
  ∧ well_formed_request read_measurement_req
  ∧ well_formed_request read_cleaning_interval_req
  ∧ (∀ val : Nat, val < 4294967296 →
      well_formed_request (write_cleaning_interval_req val))
  ∧ well_formed_request start_fan_cleaning_req
  ∧ (∀ info : DeviceInfo, well_formed_request (device_info_req info))
  ∧ well_formed_request reset_req :=
  ⟨⟨0, [0x01, 0x03], rfl⟩, ⟨1, [], rfl⟩, ⟨3, [], rfl⟩, ⟨0x80, [0x00], rfl⟩,
    fun val _ => ⟨0x80, 0x00 :: u32_to_be_bytes val, rfl⟩, ⟨0x56, [], rfl⟩,
    fun info => ⟨0xD0, [info.code], rfl⟩, ⟨0xD3, [], rfl⟩⟩

/-- C8 witness: the write-cleaning-interval frame for 604800 and the
device-info frame for the product-name selector are well formed. -/
theorem request_frames_well_formed_witness :
    well_formed_request (write_cleaning_interval_req 604800)
  ∧ well_formed_request (device_info_req DeviceInfo.ProductName) :=
  ⟨request_frames_well_formed.2.2.2.2.1 604800 (by norm_num),
   request_frames_well_formed.2.2.2.2.2.2.1 DeviceInfo.ProductName⟩
